import Mathlib

/-!
Verification of the DimensionDoor tunnel client (`tunnel_client.py`) against its
natural-language specification.  The data model and operations below are a
shallow embedding of the Python source; each definition's doc comment points at
the function it embeds.
-/

namespace DimensionDoor

/-- The msgpack data model as produced by `msgpack.unpackb(data, raw=False)` and
consumed by `msgpack.packb(obj, use_bin_type=True)`: maps with string keys,
strings (distinct from raw bytes), raw bytes, signed integers and booleans.
With `use_bin_type=True` / `raw=False` the library keeps `str` and `bytes`
distinct in both directions. -/
inductive MVal where
  | str (s : String)
  | bytes (b : List Nat)
  | int (n : Int)
  | bool (b : Bool)
  | map (m : List (String × MVal))
  deriving Repr

/-- Lookup in an association list, mirroring a Python `dict` lookup
(`d[k]` / `d.get(k)`): the first binding for the key wins. -/
def lookupAL {β : Type} : List (String × β) → String → Option β
  | [], _ => none
  | kv :: rest, k => if kv.1 = k then some kv.2 else lookupAL rest k

/-- The six frame variants of the tunnel wire protocol (spec §3).  Header maps
are association lists of strings; byte-valued fields (`body`, `data`) are lists
of byte values, kept distinct from strings. -/
inductive Frame where
  | httpRequest (requestId method path queryString : String)
      (headers : List (String × String)) (body : List Nat)
  | httpResponse (requestId : String) (status : Int)
      (headers : List (String × String)) (body : List Nat)
  | wsOpen (wsId path queryString : String)
  | wsData (wsId : String) (data : List Nat) (isText : Bool)
  | wsClose (wsId : String)
  | welcome (url err : Option String)
  deriving Repr, BEq, DecidableEq

/-- Header map as msgpack value: each value packed as a msgpack string, as in
the dict literals of `tunnel_client.py` (e.g. line 190 `"headers": resp_headers`). -/
def encodeHeaders (hs : List (String × String)) : MVal :=
  .map (hs.map (fun kv => (kv.1, MVal.str kv.2)))

/-- Frame → msgpack value.  For the client→server variants this mirrors the
dict literals passed to `msgpack.packb` in `tunnel_client.py`:
`http_response` (lines 186–192 / 196–202 / 205–211), `ws_data` (lines 253–258
and 263–268), `ws_close` (lines 242–245 and 279–282).
Modelled from the spec: the server→client variants `http_request` and
`ws_open`, and the `welcome` frame, are never encoded by the client; their
encodings follow the field tables of spec §3 (with the `type` discriminator
spec §3 prescribes for every frame, and `welcome`'s two fields optional). -/
def encodeFrame : Frame → MVal
  | .httpRequest rid me p q hs b =>
      .map [("type", .str "http_request"), ("request_id", .str rid),
            ("method", .str me), ("path", .str p), ("query_string", .str q),
            ("headers", encodeHeaders hs), ("body", .bytes b)]
  | .httpResponse rid st hs b =>
      .map [("type", .str "http_response"), ("request_id", .str rid),
            ("status", .int st), ("headers", encodeHeaders hs),
            ("body", .bytes b)]
  | .wsOpen id p q =>
      .map [("type", .str "ws_open"), ("ws_id", .str id), ("path", .str p),
            ("query_string", .str q)]
  | .wsData id d t =>
      .map [("type", .str "ws_data"), ("ws_id", .str id), ("data", .bytes d),
            ("is_text", .bool t)]
  | .wsClose id =>
      .map [("type", .str "ws_close"), ("ws_id", .str id)]
  | .welcome url err =>
      .map ([("type", .str "welcome")]
            ++ (match url with | some u => [("url", MVal.str u)] | none => [])
            ++ (match err with | some e => [("error", MVal.str e)] | none => []))

/-- `msg.get(k, default)` where the handlers use the value as a string.  A
missing key yields the handler's default; a value of the wrong msgpack type is
a malformed field (the handler's subsequent string use would fail). -/
def getStrD (m : List (String × MVal)) (k d : String) : Option String :=
  match lookupAL m k with
  | none => some d
  | some (.str s) => some s
  | some _ => none

/-- `msg.get(k, b"")` where the handlers use the value as bytes
(`body` at line 135, `data` at line 288). -/
def getBytesD (m : List (String × MVal)) (k : String) : Option (List Nat) :=
  match lookupAL m k with
  | none => some []
  | some (.bytes b) => some b
  | some _ => none

/-- `msg.get("is_text", False)` (line 289). -/
def getBoolD (m : List (String × MVal)) (k : String) (d : Bool) : Option Bool :=
  match lookupAL m k with
  | none => some d
  | some (.bool b) => some b
  | some _ => none

/-- Required integer field (`status`, spec §3: no default is listed for it). -/
def getInt (m : List (String × MVal)) (k : String) : Option Int :=
  match lookupAL m k with
  | some (.int n) => some n
  | _ => none

/-- Required string field (`request_id` of `http_response`, spec §3). -/
def getStr (m : List (String × MVal)) (k : String) : Option String :=
  match lookupAL m k with
  | some (.str s) => some s
  | _ => none

/-- Optional string field (`url` / `error` of `welcome`, spec §3). -/
def getOptStr (m : List (String × MVal)) (k : String) : Option (Option String) :=
  match lookupAL m k with
  | none => some none
  | some (.str s) => some (some s)
  | some _ => none

/-- Decode a msgpack map into a header association list; every value must be a
msgpack string (spec §3: `headers:map<str,str>`). -/
def decodeHeadersList : List (String × MVal) → Option (List (String × String))
  | [] => some []
  | (k, .str s) :: rest => (decodeHeadersList rest).map (fun r => (k, s) :: r)
  | _ :: _ => none

/-- `msg.get("headers", {})` (line 134): absent defaults to the empty map. -/
def getHeadersD (m : List (String × MVal)) : Option (List (String × String)) :=
  match lookupAL m "headers" with
  | none => some []
  | some (.map hm) => decodeHeadersList hm
  | some _ => none

/-- The dispatch key `msg.get("type", "")` (line 115): absent defaults to `""`;
a non-string value compares unequal to every known type name (all the
`msg_type == ...` tests in lines 117–124 are then false), modelled as `none`. -/
def msgTypeStr (m : List (String × MVal)) : Option String :=
  match lookupAL m "type" with
  | none => some ""
  | some (.str s) => some s
  | some _ => none

/-- msgpack value → frame.  Dispatch on `msg.get("type", "")` follows
`_handle_message` (lines 115–126); the per-variant field reads and defaults
follow the handlers: `_handle_http_request` lines 130–135, `_handle_ws_open`
lines 220–222 (note the `path` default `"/api/websocket"`), `_handle_ws_data`
lines 287–289, `_handle_ws_close` line 306.
Modelled from the spec: decoding of `http_response` (never decoded by the
client) follows spec §3 with the §4.A defaults for `headers`/`body`; decoding
of `welcome` reads the two optional fields as in lines 88–93.
A non-map value, or a known `type` with a wrongly-typed field, is malformed
(`none`). -/
def decodeFrame (v : MVal) : Option Frame :=
  match v with
  | .map m =>
      match msgTypeStr m with
      | some t =>
        if t = "http_request" then
          match getStrD m "request_id" "", getStrD m "method" "GET",
                getStrD m "path" "/", getStrD m "query_string" "",
                getHeadersD m, getBytesD m "body" with
          | some rid, some me, some p, some q, some hs, some b =>
              some (.httpRequest rid me p q hs b)
          | _, _, _, _, _, _ => none
        else if t = "http_response" then
          match getStr m "request_id", getInt m "status",
                getHeadersD m, getBytesD m "body" with
          | some rid, some st, some hs, some b =>
              some (.httpResponse rid st hs b)
          | _, _, _, _ => none
        else if t = "ws_open" then
          match getStrD m "ws_id" "", getStrD m "path" "/api/websocket",
                getStrD m "query_string" "" with
          | some id, some p, some q => some (.wsOpen id p q)
          | _, _, _ => none
        else if t = "ws_data" then
          match getStrD m "ws_id" "", getBytesD m "data",
                getBoolD m "is_text" false with
          | some id, some d, some b => some (.wsData id d b)
          | _, _, _ => none
        else if t = "ws_close" then
          match getStrD m "ws_id" "" with
          | some id => some (.wsClose id)
          | none => none
        else if t = "welcome" then
          match getOptStr m "url", getOptStr m "error" with
          | some u, some e => some (.welcome u e)
          | _, _ => none
        else none
      | none => none
  | _ => none

/-! ### Local HTTP invoker: `_handle_http_request` (lines 128–216) -/

/-- The request-header sanitisation set `skip` (lines 146–151). -/
def skipHeaders : List String :=
  ["host", "connection", "upgrade", "transfer-encoding", "content-length",
   "x-forwarded-for", "x-forwarded-proto", "x-forwarded-host",
   "x-real-ip", "x-forwarded-server", "accept-encoding"]

/-- ASCII lower-casing of one character, as `str.lower()` acts on the ASCII
range of a header name. -/
def lowerChar (c : Char) : Char :=
  if c.isUpper then Char.ofNat (c.toNat + 32) else c

/-- `k.lower()` (line 153) on ASCII header names. -/
def pyLower (s : String) : String := String.mk (s.data.map lowerChar)

/-- Request-header sanitisation (lines 145–154): a header is forwarded to the
local server iff its lower-cased name is not in `skip`; kept values pass
through unchanged. -/
def forwardHeaders (hs : List (String × String)) : List (String × String) :=
  hs.filter (fun kv => !(skipHeaders.contains (pyLower kv.1)))

/-- The response headers popped before replying (lines 182–184).  The removal
is `resp_headers.pop(h, None)` on a plain `dict`, i.e. an exact,
case-sensitive match against these canonical spellings. -/
def respStripHeaders : List String :=
  ["Transfer-Encoding", "Connection", "Keep-Alive", "Content-Length",
   "Content-Encoding"]

/-- Response-header removal (lines 179–184): drops exactly the bindings whose
name equals one of `respStripHeaders` verbatim. -/
def sanitizeRespHeaders (hs : List (String × String)) : List (String × String) :=
  hs.filter (fun kv => !(respStripHeaders.contains kv.1))

/-- UTF-8 bytes of a string (for the fixed error bodies `b"..."`). -/
def strBytes (s : String) : List Nat := s.toUTF8.toList.map (fun b => b.toNat)

/-- Outcome of the `try` block of `_handle_http_request` (lines 158–211) as
observed by its `except` clauses: the local request returned a full response,
or raised `aiohttp.ClientError` (a transport-level failure contacting the
local server), or raised any other exception. -/
inductive HaOutcome where
  | ok (status : Int) (headers : List (String × String)) (body : List Nat)
  | clientError
  | otherError
  deriving Repr

/-- The `response` dict built by `_handle_http_request`: success path lines
186–192 (with the header removal of lines 182–184 applied), `ClientError`
path lines 194–202, generic path lines 203–211. -/
def buildHttpResponse (requestId : String) (o : HaOutcome) : Frame :=
  match o with
  | .ok st hs b => .httpResponse requestId st (sanitizeRespHeaders hs) b
  | .clientError =>
      .httpResponse requestId 502 [("Content-Type", "text/plain")]
        (strBytes "Home Assistant is not responding")
  | .otherError =>
      .httpResponse requestId 500 [("Content-Type", "text/plain")]
        (strBytes "Internal tunnel error")

/-- The frames `_handle_http_request` actually sends on the tunnel (lines
213–216): the one response frame when the transport is open
(`self._ws and not self._ws.closed`), nothing otherwise. -/
def handleHttpRequest (tunnelOpen : Bool) (requestId : String) (o : HaOutcome) :
    List Frame :=
  if tunnelOpen then [buildHttpResponse requestId o] else []

/-- The `request_id` field carried by a frame, when its variant has one. -/
def Frame.requestIdOf : Frame → Option String
  | .httpRequest rid _ _ _ _ _ => some rid
  | .httpResponse rid _ _ _ => some rid
  | _ => none

/-! ### Reconnect supervisor: `start` (lines 36–60) and the welcome handling
of `_connect` (lines 84–97) -/

/-- The supervisor state retained across connection attempts:
`self._reconnect_delay` (line 34, initially 1). -/
structure SupState where
  delay : Nat
  deriving Repr, DecidableEq

/-- The two events that touch `reconnect_delay`: a connection attempt that
ends without a welcome-reset (`fail`), and the arrival of a first frame whose
`error` field is not truthy (`welcomeOk`, lines 93–97). -/
inductive SupEvent where
  | fail
  | welcomeOk
  deriving Repr, DecidableEq

/-- One step of the delay bookkeeping: on failure the backoff block (lines
55–58) sleeps and then sets `delay = min(delay * 2, 60)`; on a confirmed
welcome `_connect` sets it back to 1 (lines 94 and 97). -/
def supStep (s : SupState) (e : SupEvent) : SupState :=
  match e with
  | .fail => ⟨min (s.delay * 2) 60⟩
  | .welcomeOk => ⟨1⟩

/-- Initial supervisor state (line 34). -/
def supInit : SupState := ⟨1⟩

/-- Delay state after a sequence of events, starting from a fresh client. -/
def supRun (es : List SupEvent) : SupState := es.foldl supStep supInit

/-! ### Terminal rejection and process exit: `_connect` lines 85–97 and
`main` lines 325–362 -/

/-- Python truthiness of `data.get("error")` (line 89): an absent key gives
`None` and an empty string is falsy; only a non-empty string error triggers
the rejection branch. -/
def welcomeErrorTruthy : Option String → Bool
  | none => false
  | some s => !(s == "")

/-- How one connection attempt ends for the supervisor loop: the welcome was
accepted and the connection ran until it dropped (`ok`, the loop continues),
or the welcome carried a truthy error and `self._running` was set to `False`
(`rejected`, lines 89–92). -/
inductive ConnResult where
  | ok
  | rejected (err : String)
  deriving Repr, DecidableEq

/-- Classification of a connection attempt by the `error` field of its welcome
message (lines 88–97). -/
def classifyWelcome (err : Option String) : ConnResult :=
  if welcomeErrorTruthy err then .rejected (err.getD "") else .ok

/-- Number of connection attempts the `while self._running` loop (lines 42–58)
makes, given the outcome each successive attempt would have: after a
`rejected` outcome `self._running` is `False`, the backoff block is skipped
(line 55) and the loop exits, so later outcomes are never attempted. -/
def attemptsMade : List ConnResult → Nat
  | [] => 0
  | .ok :: rs => 1 + attemptsMade rs
  | .rejected _ :: _ => 1

/-- Exit status of the process, from `main` (lines 325–362): `start()` catches
every exception of `_connect` (lines 45–53), the loop ends, `_cleanup` runs
and `main` returns `None`; there is no `sys.exit` call anywhere in the
program, so the interpreter exits with status 0 on every completed run,
terminal rejection included. -/
def processExitCode (_ : List ConnResult) : Nat := 0

/-! ### Dispatcher: `_handle_message` (lines 107–126) -/

/-- Result of `msgpack.unpackb(data, raw=False)` (line 110): either the call
raised (caught at lines 111–113) or it produced a msgpack value. -/
inductive Unpacked where
  | unpackError
  | value (v : MVal)
  deriving Repr

/-- What handling one inbound payload does to the dispatcher. -/
inductive Dispatch where
  | spawned (handler : String)
  | loggedUnpackFailure
  | loggedUnknownType
  | raisedAttributeError
  deriving Repr, DecidableEq

/-- `_handle_message`: an unpack failure is logged and the method returns
(lines 111–113); a map dispatches on `msg.get("type", "")` (lines 115–126),
spawning a task for the four known types and logging a warning otherwise.
A payload that unpacks to a non-map value reaches `msg.get` (line 115) on an
object with no `get` attribute: the `AttributeError` escapes the method. -/
def handleMessage (u : Unpacked) : Dispatch :=
  match u with
  | .unpackError => .loggedUnpackFailure
  | .value (.map m) =>
      match msgTypeStr m with
      | some t =>
          if t = "http_request" then .spawned "http_request"
          else if t = "ws_open" then .spawned "ws_open"
          else if t = "ws_data" then .spawned "ws_data"
          else if t = "ws_close" then .spawned "ws_close"
          else .loggedUnknownType
      | none => .loggedUnknownType
  | .value _ => .raisedAttributeError

/-- Whether the dispatcher loop survives handling one message: an exception
escaping `_handle_message` propagates through the `async for` (lines 100–102)
out of `_connect`, is caught in `start` (lines 45–53) and tears the transport
down, cancelling every in-flight request and forcing a reconnect. -/
def dispatcherSurvives (d : Dispatch) : Bool :=
  match d with
  | .raisedAttributeError => false
  | _ => true

/-! ### WebSocket data forwarding: `_handle_ws_data` (lines 285–302) -/

/-- The fields `_handle_ws_data` reads from a decoded `ws_data` frame
(lines 287–289). -/
structure WsDataMsg where
  wsId : String
  data : List Nat
  isText : Bool
  deriving Repr, DecidableEq

/-- What one `_handle_ws_data` call did. -/
inductive WsDataResult where
  | droppedNoSession
  | sentToLocal
  | loggedSendFailure
  deriving Repr, DecidableEq

/-- `_handle_ws_data`: result is (updated registry, `ws_close` frames emitted
to the server, what happened).  `registry` maps `ws_id` to a local-socket
handle, `closedSocks` lists handles whose socket is closed, and `sendRaises`
abstracts the `try` block (lines 295–302) raising — a UTF-8 decode failure of
`data` when `is_text` is true, or a failure of the local send.  An absent or
closed session returns silently (lines 291–293); a raised exception is logged
and nothing else happens (lines 301–302): on no path does the handler change
the registry or emit a frame. -/
def handleWsData (registry : List (String × Nat)) (closedSocks : List Nat)
    (m : WsDataMsg) (sendRaises : Bool) :
    List (String × Nat) × List Frame × WsDataResult :=
  match lookupAL registry m.wsId with
  | none => (registry, [], .droppedNoSession)
  | some h =>
      if closedSocks.contains h then (registry, [], .droppedNoSession)
      else if sendRaises then (registry, [], .loggedSendFailure)
      else (registry, [], .sentToLocal)

/-! ### Session registry: `self._ws_connections` as a state machine over the
handler steps that touch it (`_handle_ws_open` lines 218–246, the relay task
`_relay_ws_from_ha` lines 248–283, `_handle_ws_close` lines 304–309) -/

/-- Python dict assignment `d[k] = v` (line 233): replaces the value in place
when the key is present, else appends a new binding. -/
def insertAL {β : Type} (l : List (String × β)) (k : String) (v : β) :
    List (String × β) :=
  if (lookupAL l k).isSome then
    l.map (fun kv => if kv.1 = k then (k, v) else kv)
  else l ++ [(k, v)]

/-- Python `d.pop(k, None)` (lines 277 and 307): removes the binding for `k`
if present, otherwise a no-op. -/
def removeAL {β : Type} (l : List (String × β)) (k : String) :
    List (String × β) :=
  l.filter (fun kv => kv.1 != k)

/-- Registry state: `registry` is `self._ws_connections` (ws_id → handle of
the underlying local socket), `socks` the handles of the local WebSockets this
process currently holds open, `nextH` a fresh-handle counter, `emitted` the
`ws_id`s of the `ws_close` frames sent to the server. -/
structure WsState where
  registry : List (String × Nat)
  socks : List Nat
  nextH : Nat
  emitted : List String
  deriving Repr, DecidableEq

/-- The handler steps that touch the registry. -/
inductive WsEvent where
  | openOk (wsId : String)
  | openFail (wsId : String)
  | relayDone (wsId : String)
  | wsClose (wsId : String)
  deriving Repr, DecidableEq

/-- One completed handler step.
`openOk`: `ws_connect` succeeded, a new local socket is open and registered
(lines 232–236); a pre-existing binding for the same `ws_id` is overwritten,
its socket left open but untracked.
`openFail`: `ws_connect` raised; one `ws_close` is sent, nothing registered
(lines 238–246).
`relayDone`: the relay task's loop ended because its local socket closed or
errored; the `finally` block pops the `ws_id` and emits one `ws_close`
(lines 272–283).
`wsClose`: `_handle_ws_close` pops the `ws_id` and closes the socket if still
open (lines 304–309); idempotent. -/
def wsStep (s : WsState) (e : WsEvent) : WsState :=
  match e with
  | .openOk id =>
      { registry := insertAL s.registry id s.nextH,
        socks := s.socks ++ [s.nextH],
        nextH := s.nextH + 1,
        emitted := s.emitted }
  | .openFail id => { s with emitted := s.emitted ++ [id] }
  | .relayDone id =>
      match lookupAL s.registry id with
      | some h =>
          { registry := removeAL s.registry id,
            socks := s.socks.erase h,
            nextH := s.nextH,
            emitted := s.emitted ++ [id] }
      | none => { s with emitted := s.emitted ++ [id] }
  | .wsClose id =>
      match lookupAL s.registry id with
      | some h =>
          { registry := removeAL s.registry id,
            socks := s.socks.erase h,
            nextH := s.nextH,
            emitted := s.emitted }
      | none => s

/-- The empty registry at client start (line 32). -/
def wsInit : WsState := ⟨[], [], 0, []⟩

/-- Registry state after a sequence of completed handler steps. -/
def wsRun (es : List WsEvent) : WsState := es.foldl wsStep wsInit

/-- A trace is fresh when every successful `ws_open` carries a `ws_id` not
currently registered (the server assigns ids "unique while open", spec §3). -/
def freshTrace : WsState → List WsEvent → Bool
  | _, [] => true
  | s, e :: es =>
      (match e with
       | WsEvent.openOk id => (lookupAL s.registry id).isNone
       | _ => true) && freshTrace (wsStep s e) es

/-- The registry invariant: bindings are exactly the open local sockets (in
order), ws_ids are unique, handles are unique and below the counter. -/
def WsInv (s : WsState) : Prop :=
  s.registry.map Prod.snd = s.socks ∧ (s.registry.map Prod.fst).Nodup ∧
    s.socks.Nodup ∧ ∀ h ∈ s.socks, h < s.nextH

/-! ## Supporting lemmas -/

theorem lookupAL_eq_none_iff {β : Type} (l : List (String × β)) (k : String) :
    lookupAL l k = none ↔ k ∉ l.map Prod.fst := by
  induction l with
  | nil => simp [lookupAL]
  | cons kv rest ih =>
      by_cases h : kv.1 = k
      · simp [lookupAL, h]
      · simp only [lookupAL, h, if_false, ih, List.map_cons, List.mem_cons]
        constructor
        · intro hn hor
          rcases hor with he | hm
          · exact h he.symm
          · exact hn hm
        · intro hn hm
          exact hn (Or.inr hm)

theorem lookupAL_mem_snd {β : Type} {l : List (String × β)} {k : String} {v : β}
    (h : lookupAL l k = some v) : v ∈ l.map Prod.snd := by
  induction l with
  | nil => simp [lookupAL] at h
  | cons kv rest ih =>
      by_cases hk : kv.1 = k
      · simp [lookupAL, hk] at h
        simp [h]
      · simp [lookupAL, hk] at h
        simp [ih h]

theorem removeAL_eq_self {β : Type} {l : List (String × β)} {k : String}
    (h : ∀ kv ∈ l, kv.1 ≠ k) : removeAL l k = l := by
  rw [removeAL, List.filter_eq_self]
  intro kv hkv
  simpa using h kv hkv

theorem removeAL_map_snd {β : Type} [DecidableEq β] {l : List (String × β)}
    {k : String} {h : β}
    (hkeys : (l.map Prod.fst).Nodup) (hsnd : (l.map Prod.snd).Nodup)
    (hl : lookupAL l k = some h) :
    (removeAL l k).map Prod.snd = (l.map Prod.snd).erase h := by
  induction l with
  | nil => simp [lookupAL] at hl
  | cons kv rest ih =>
      by_cases hk : kv.1 = k
      · simp [lookupAL, hk] at hl
        subst hl
        have hknotin : k ∉ rest.map Prod.fst := by
          rw [← hk]
          exact (List.nodup_cons.mp hkeys).1
        have hrest : removeAL rest k = rest := by
          apply removeAL_eq_self
          intro kv' hkv' he
          exact hknotin (he ▸ List.mem_map_of_mem Prod.fst hkv')
        have hstep : removeAL (kv :: rest) k = removeAL rest k := by
          simp [removeAL, List.filter_cons, hk]
        rw [hstep, hrest]
        simp only [List.map_cons]
        rw [List.erase_cons_head]
      · simp [lookupAL, hk] at hl
        have hv : h ∈ rest.map Prod.snd := lookupAL_mem_snd hl
        have hne : kv.2 ≠ h := by
          intro he
          exact (List.nodup_cons.mp hsnd).1 (he ▸ hv)
        have hstep : removeAL (kv :: rest) k = kv :: removeAL rest k := by
          simp [removeAL, List.filter_cons, hk]
        rw [hstep]
        simp only [List.map_cons]
        rw [List.erase_cons_tail]
        · rw [ih (List.nodup_cons.mp hkeys).2 (List.nodup_cons.mp hsnd).2 hl]
        · simp
          exact hne

theorem insertAL_of_absent {β : Type} {l : List (String × β)} {k : String} (v : β)
    (h : lookupAL l k = none) : insertAL l k v = l ++ [(k, v)] := by
  simp [insertAL, h]

theorem insertAL_map_fst_of_present {β : Type} {l : List (String × β)}
    {k : String} (v : β) (h : (lookupAL l k).isSome) :
    (insertAL l k v).map Prod.fst = l.map Prod.fst := by
  simp only [insertAL, h, if_true, List.map_map]
  apply List.map_congr_left
  intro kv _
  by_cases hk : kv.1 = k <;> simp [hk]

theorem wsStep_keys_nodup {s : WsState} (e : WsEvent)
    (h : (s.registry.map Prod.fst).Nodup) :
    ((wsStep s e).registry.map Prod.fst).Nodup := by
  cases e with
  | openOk id =>
      by_cases hl : (lookupAL s.registry id).isSome
      · simpa [wsStep, insertAL_map_fst_of_present s.nextH hl] using h
      · have hnone : lookupAL s.registry id = none := by
          cases hx : lookupAL s.registry id
          · rfl
          · simp [hx] at hl
        have hnotin : id ∉ s.registry.map Prod.fst :=
          (lookupAL_eq_none_iff _ _).mp hnone
        simp [wsStep, insertAL_of_absent _ hnone, List.nodup_append, h, hnotin]
  | openFail id => simpa [wsStep] using h
  | relayDone id =>
      cases hl : lookupAL s.registry id with
      | none => simpa [wsStep, hl] using h
      | some hh =>
          simp only [wsStep, hl]
          exact ((List.filter_sublist _).map Prod.fst).nodup h
  | wsClose id =>
      cases hl : lookupAL s.registry id with
      | none => simpa [wsStep, hl] using h
      | some hh =>
          simp only [wsStep, hl]
          exact ((List.filter_sublist _).map Prod.fst).nodup h

theorem wsRemove_inv {s : WsState} {id : String} {h : Nat} (hInv : WsInv s)
    (hl : lookupAL s.registry id = some h) (em : List String) :
    WsInv ⟨removeAL s.registry id, s.socks.erase h, s.nextH, em⟩ := by
  obtain ⟨heq, hkeys, hsocks, hbound⟩ := hInv
  have hsnd : (s.registry.map Prod.snd).Nodup := by
    rw [heq]
    exact hsocks
  refine ⟨?_, ?_, ?_, ?_⟩
  · rw [removeAL_map_snd hkeys hsnd hl, heq]
  · exact ((List.filter_sublist _).map Prod.fst).nodup hkeys
  · exact hsocks.erase h
  · intro x hx
    exact hbound x (List.mem_of_mem_erase hx)

theorem wsStep_inv {s : WsState} {e : WsEvent} (hInv : WsInv s)
    (hfresh : ∀ id, e = .openOk id → lookupAL s.registry id = none) :
    WsInv (wsStep s e) := by
  obtain ⟨heq, hkeys, hsocks, hbound⟩ := hInv
  cases e with
  | openOk id =>
      have hnone := hfresh id rfl
      have hnotin : id ∉ s.registry.map Prod.fst :=
        (lookupAL_eq_none_iff _ _).mp hnone
      have hnextfresh : s.nextH ∉ s.socks := fun hx => lt_irrefl _ (hbound _ hx)
      refine ⟨?_, ?_, ?_, ?_⟩
      · simp [wsStep, insertAL_of_absent _ hnone, heq]
      · simp [wsStep, insertAL_of_absent _ hnone, List.nodup_append, hkeys,
              hnotin]
      · simp [wsStep, List.nodup_append, hsocks, hnextfresh]
      · intro x hx
        simp [wsStep] at hx
        rcases hx with hx | hx
        · exact Nat.lt_succ_of_lt (hbound _ hx)
        · subst hx
          simp [wsStep]
  | openFail id => exact ⟨heq, hkeys, hsocks, hbound⟩
  | relayDone id =>
      cases hl : lookupAL s.registry id with
      | none => simpa [wsStep, hl] using ⟨heq, hkeys, hsocks, hbound⟩
      | some hh =>
          simpa [wsStep, hl] using
            wsRemove_inv ⟨heq, hkeys, hsocks, hbound⟩ hl (s.emitted ++ [id])
  | wsClose id =>
      cases hl : lookupAL s.registry id with
      | none => simpa [wsStep, hl] using ⟨heq, hkeys, hsocks, hbound⟩
      | some hh =>
          simpa [wsStep, hl] using
            wsRemove_inv ⟨heq, hkeys, hsocks, hbound⟩ hl s.emitted

theorem wsFold_inv : ∀ (es : List WsEvent) (s : WsState), WsInv s →
    freshTrace s es = true → WsInv (es.foldl wsStep s)
  | [], _, hInv, _ => hInv
  | e :: es, s, hInv, hf => by
      simp only [freshTrace, Bool.and_eq_true] at hf
      refine wsFold_inv es (wsStep s e) (wsStep_inv hInv ?_) hf.2
      intro id he
      subst he
      simpa [Option.isNone_iff_eq_none] using hf.1

theorem wsFold_keys_nodup : ∀ (es : List WsEvent) (s : WsState),
    (s.registry.map Prod.fst).Nodup →
    (((es.foldl wsStep s).registry.map Prod.fst)).Nodup
  | [], _, h => h
  | e :: es, s, h => wsFold_keys_nodup es (wsStep s e) (wsStep_keys_nodup e h)

theorem supFoldFails_delay : ∀ (N d : Nat), d ≤ 60 →
    ((List.replicate N SupEvent.fail).foldl supStep ⟨d⟩).delay =
      min (d * 2 ^ N) 60
  | 0, d, hd => by simp [Nat.min_eq_left hd]
  | N + 1, d, hd => by
      rw [List.replicate_succ, List.foldl_cons]
      have hstep : supStep ⟨d⟩ SupEvent.fail = ⟨min (d * 2) 60⟩ := rfl
      rw [hstep, supFoldFails_delay N (min (d * 2) 60) (Nat.min_le_right _ _)]
      rcases Nat.le_total (d * 2) 60 with hle | hge
      · rw [Nat.min_eq_left hle]
        congr 1
        rw [pow_succ]
        ring
      · rw [Nat.min_eq_right hge]
        have h60 : (60 : Nat) ≤ 60 * 2 ^ N :=
          Nat.le_mul_of_pos_right 60 (by positivity)
        rw [Nat.min_eq_right h60]
        have hbig : (60 : Nat) ≤ d * 2 ^ (N + 1) := by
          calc (60 : Nat) ≤ 60 * 2 ^ N := h60
            _ ≤ d * 2 * 2 ^ N := Nat.mul_le_mul_right _ hge
            _ = d * 2 ^ (N + 1) := by rw [pow_succ]; ring
        rw [Nat.min_eq_right hbig]

theorem supFold_bounds : ∀ (es : List SupEvent) (s : SupState),
    1 ≤ s.delay → s.delay ≤ 60 →
    1 ≤ (es.foldl supStep s).delay ∧ (es.foldl supStep s).delay ≤ 60
  | [], _, h1, h60 => ⟨h1, h60⟩
  | e :: es, s, h1, h60 => by
      rw [List.foldl_cons]
      cases e with
      | fail =>
          refine supFold_bounds es _ ?_ ?_
          · simp only [supStep]
            omega
          · simp only [supStep]
            omega
      | welcomeOk =>
          refine supFold_bounds es _ ?_ ?_
          · simp [supStep]
          · simp [supStep]

theorem decodeHeadersList_encode (hs : List (String × String)) :
    decodeHeadersList (hs.map (fun kv => (kv.1, MVal.str kv.2))) = some hs := by
  induction hs with
  | nil => rfl
  | cons kv rest ih => simp [decodeHeadersList, ih]

/-! ## The claims -/

/-- Claim C1: for every frame of the six variants, decoding the encoding
yields the frame back unchanged — byte-valued fields (`body`, `data`) return
as the `bytes` constructor (never as text), the integer `status` is preserved,
and the header association list is preserved exactly (hence in particular up
to key iteration order). -/
theorem C1_decode_encode_roundtrip (f : Frame) :
    decodeFrame (encodeFrame f) = some f := by
  cases f with
  | httpRequest rid me p q hs b =>
      simp [encodeFrame, decodeFrame, msgTypeStr, lookupAL, getStrD, getHeadersD,
            getBytesD, encodeHeaders, decodeHeadersList_encode]
  | httpResponse rid st hs b =>
      simp [encodeFrame, decodeFrame, msgTypeStr, lookupAL, getStr, getInt,
            getHeadersD, getBytesD, encodeHeaders, decodeHeadersList_encode]
  | wsOpen id p q =>
      simp [encodeFrame, decodeFrame, msgTypeStr, lookupAL, getStrD]
  | wsData id d t =>
      simp [encodeFrame, decodeFrame, msgTypeStr, lookupAL, getStrD, getBytesD,
            getBoolD]
  | wsClose id =>
      simp [encodeFrame, decodeFrame, msgTypeStr, lookupAL, getStrD]
  | welcome url err =>
      cases url <;> cases err <;>
        simp [encodeFrame, decodeFrame, msgTypeStr, lookupAL, getOptStr]

/-- Claim C2: a header `(k, v)` is forwarded to the local server iff it is in
the inbound map and its lower-cased name is not in the sanitisation set, so
the forwarded names are exactly the inbound names minus the sanitisation set
(membership compared case-insensitively) and kept values are unchanged. -/
theorem C2_request_header_sanitisation (hs : List (String × String))
    (k v : String) :
    (k, v) ∈ forwardHeaders hs ↔
      ((k, v) ∈ hs ∧ skipHeaders.contains (pyLower k) = false) := by
  simp [forwardHeaders, List.mem_filter]

/-- Claim C3: handling one `http_request` emits exactly one `http_response`
carrying the request's `request_id` when the tunnel transport is open, and
nothing otherwise; a transport-level failure contacting the local server maps
to status 502 with a `text/plain` "Home Assistant is not responding" body,
and any other handler error maps to status 500 with a `text/plain`
"Internal tunnel error" body. -/
theorem C3_one_response_per_request (rid : String) (o : HaOutcome) :
    handleHttpRequest true rid o = [buildHttpResponse rid o] ∧
    (buildHttpResponse rid o).requestIdOf = some rid ∧
    handleHttpRequest false rid o = [] ∧
    buildHttpResponse rid HaOutcome.clientError =
      Frame.httpResponse rid 502 [("Content-Type", "text/plain")]
        (strBytes "Home Assistant is not responding") ∧
    buildHttpResponse rid HaOutcome.otherError =
      Frame.httpResponse rid 500 [("Content-Type", "text/plain")]
        (strBytes "Internal tunnel error") := by
  refine ⟨rfl, ?_, rfl, rfl, rfl⟩
  cases o <;> rfl

/-- Claim C4: in every reachable supervisor state the reconnect delay lies in
[1, 60]; after N consecutive failed attempts from the start it equals
`min(2^N, 60)`; the same holds for N failures following any welcome; a
welcome resets the delay to 1; and a failed attempt never leaves the delay at
1, so only a successful welcome resets it. -/
theorem C4_reconnect_delay_backoff (es : List SupEvent) (N : Nat) :
    (1 ≤ (supRun es).delay ∧ (supRun es).delay ≤ 60) ∧
    (supRun (List.replicate N SupEvent.fail)).delay = min (2 ^ N) 60 ∧
    (supRun (es ++ SupEvent.welcomeOk :: List.replicate N SupEvent.fail)).delay
      = min (2 ^ N) 60 ∧
    (supRun (es ++ [SupEvent.welcomeOk])).delay = 1 ∧
    (supRun (es ++ [SupEvent.fail])).delay ≠ 1 := by
  have hb := supFold_bounds es supInit (by simp [supInit]) (by simp [supInit])
  refine ⟨hb, ?_, ?_, ?_, ?_⟩
  · have h := supFoldFails_delay N 1 (by omega)
    simpa [supRun, supInit] using h
  · simp only [supRun, List.foldl_append, List.foldl_cons]
    have hstep : supStep (es.foldl supStep supInit) SupEvent.welcomeOk = ⟨1⟩ :=
      rfl
    rw [hstep]
    have h := supFoldFails_delay N 1 (by omega)
    simpa using h
  · simp only [supRun, List.foldl_append, List.foldl_cons, List.foldl_nil]
    rfl
  · simp only [supRun, List.foldl_append, List.foldl_cons, List.foldl_nil]
    have h1 := hb.1
    cases hs : es.foldl supStep supInit with
    | mk d =>
        rw [hs] at h1
        simp [supStep] at h1 ⊢
        omega

/-- Claim C5 (amended): a welcome with a non-empty `error` is classified as a
terminal rejection, the supervisor loop makes no further connection attempts
after it — but the process then exits with status 0, not a non-zero status
(`main` has no `sys.exit` on any path). -/
theorem C5_terminal_rejection (pre : List ConnResult) (e : String)
    (post : List ConnResult)
    (hpre : ∀ r ∈ pre, r = ConnResult.ok) (he : e ≠ "") :
    classifyWelcome (some e) = ConnResult.rejected e ∧
    attemptsMade (pre ++ ConnResult.rejected e :: post) = pre.length + 1 ∧
    processExitCode (pre ++ ConnResult.rejected e :: post) = 0 := by
  refine ⟨?_, ?_, rfl⟩
  · simp [classifyWelcome, welcomeErrorTruthy, he]
  · induction pre with
    | nil => simp [attemptsMade]
    | cons r rs ih =>
        have hr := hpre r (by simp)
        subst hr
        rw [List.cons_append]
        show 1 + attemptsMade (rs ++ ConnResult.rejected e :: post) = _
        rw [ih (fun r h => hpre r (List.mem_cons_of_mem _ h))]
        simp
        omega

/-- Witness for C5: a concrete run — one dropped connection, then a rejected
welcome `"invalid token"`; the rejection is attempt number 2 and nothing after
it is attempted, and the process exit status is 0. -/
theorem C5_terminal_rejection_witness :
    classifyWelcome (some "invalid token") = ConnResult.rejected "invalid token" ∧
    attemptsMade ([ConnResult.ok] ++
      ConnResult.rejected "invalid token" :: [ConnResult.ok]) = 2 ∧
    processExitCode ([ConnResult.ok] ++
      ConnResult.rejected "invalid token" :: [ConnResult.ok]) = 0 :=
  C5_terminal_rejection [ConnResult.ok] "invalid token" [ConnResult.ok]
    (by decide) (by decide)

/-- Counterexample to C5 as stated: on the terminal rejection
`{"error": "invalid token"}` the process exit status is 0, not non-zero. -/
theorem C5_terminal_rejection_counterexample :
    processExitCode [ConnResult.rejected "invalid token"] = 0 := rfl

/-- Claim C6 (amended): a response header `(k, v)` survives iff it is in the
local server's map and its name is none of the five canonical-cased names
`Transfer-Encoding`, `Connection`, `Keep-Alive`, `Content-Length`,
`Content-Encoding` — the removal is an exact, case-sensitive match, and every
other binding (differently-cased variants of those names included) is
preserved unchanged. -/
theorem C6_response_header_removal (hs : List (String × String)) (k v : String) :
    (k, v) ∈ sanitizeRespHeaders hs ↔
      ((k, v) ∈ hs ∧ respStripHeaders.contains k = false) := by
  simp [sanitizeRespHeaders, List.mem_filter]

/-- Counterexample to C6 as stated: the lower-cased name `content-length` — a
letter-casing of the forbidden `Content-Length` — survives the removal. -/
theorem C6_response_header_removal_counterexample :
    ("content-length", "5") ∈ sanitizeRespHeaders [("content-length", "5")] ∧
      pyLower "content-length" = pyLower "Content-Length" := by
  constructor
  · decide
  · decide

/-- Claim C7: a payload that fails to unpack is only logged, but a payload
that unpacks to a non-map value (here the msgpack integer 1, wire byte 0x01)
raises `AttributeError` out of `_handle_message`, which does not survive the
dispatcher: the transport is torn down and every in-flight request with it. -/
theorem C7_malformed_frame_dispatch :
    handleMessage (Unpacked.value (MVal.int 1)) = Dispatch.raisedAttributeError ∧
    dispatcherSurvives (handleMessage (Unpacked.value (MVal.int 1))) = false ∧
    handleMessage Unpacked.unpackError = Dispatch.loggedUnpackFailure ∧
    dispatcherSurvives (handleMessage Unpacked.unpackError) = true := by
  decide

/-- Claim C8 (amended): on every path — session absent, session closed, send
succeeded, or the send/UTF-8-decode raised — `_handle_ws_data` leaves the
session registry unchanged and emits no `ws_close` frame; a send failure is
only logged. -/
theorem C8_ws_data_send_failure (reg : List (String × Nat)) (cs : List Nat)
    (m : WsDataMsg) (b : Bool) :
    (handleWsData reg cs m b).1 = reg ∧ (handleWsData reg cs m b).2.1 = [] := by
  cases h : lookupAL reg m.wsId with
  | none => simp [handleWsData, h]
  | some hh =>
      simp only [handleWsData, h]
      split_ifs <;> simp

/-- Counterexample to C8 as stated: a registered session `w1` whose send
raises (e.g. `data = b"\xff"` with `is_text` true, which cannot UTF-8 decode)
is merely logged — the session stays in the registry and zero `ws_close`
frames are emitted, not one. -/
theorem C8_ws_data_send_failure_counterexample :
    handleWsData [("w1", 0)] [] ⟨"w1", [255], true⟩ true =
      ([("w1", 0)], [], WsDataResult.loggedSendFailure) ∧
    (handleWsData [("w1", 0)] [] ⟨"w1", [255], true⟩ true).2.1.length ≠ 1 := by
  decide

/-- Claim C9 (amended): after every completed handler step the registry has at
most one session per `ws_id` (unconditionally), and — provided no `ws_open`
arrives for a `ws_id` that is already registered — the number of registry
entries equals the number of local WebSockets this process holds open. -/
theorem C9_registry_tracks_open_sockets (es : List WsEvent) :
    ((wsRun es).registry.map Prod.fst).Nodup ∧
      (freshTrace wsInit es = true →
        (wsRun es).registry.length = (wsRun es).socks.length) := by
  constructor
  · exact wsFold_keys_nodup es wsInit (by simp [wsInit])
  · intro hf
    have hInv : WsInv (wsRun es) :=
      wsFold_inv es wsInit
        ⟨rfl, by simp [wsInit], by simp [wsInit], by simp [wsInit]⟩ hf
    calc (wsRun es).registry.length
        = ((wsRun es).registry.map Prod.snd).length := (List.length_map _ _).symm
      _ = (wsRun es).socks.length := by rw [hInv.1]

/-- Witness for C9: the concrete fresh trace open `"a"` then close `"a"` — the
registry keys are distinct and the registry size equals the number of open
local sockets (both 0 at the end). -/
theorem C9_registry_tracks_open_sockets_witness :
    ((wsRun [WsEvent.openOk "a", WsEvent.wsClose "a"]).registry.map
      Prod.fst).Nodup ∧
      (wsRun [WsEvent.openOk "a", WsEvent.wsClose "a"]).registry.length =
        (wsRun [WsEvent.openOk "a", WsEvent.wsClose "a"]).socks.length :=
  ⟨(C9_registry_tracks_open_sockets [WsEvent.openOk "a", WsEvent.wsClose "a"]).1,
   (C9_registry_tracks_open_sockets [WsEvent.openOk "a", WsEvent.wsClose "a"]).2
     (by decide)⟩

/-- Counterexample to C9 as stated: two `ws_open` for the same `ws_id` leave
one registry entry but two open local sockets — the overwritten session's
socket is open yet untracked. -/
theorem C9_registry_tracks_open_sockets_counterexample :
    (wsRun [WsEvent.openOk "w1", WsEvent.openOk "w1"]).registry.length = 1 ∧
      (wsRun [WsEvent.openOk "w1", WsEvent.openOk "w1"]).socks.length = 2 ∧
      (wsRun [WsEvent.openOk "w1", WsEvent.openOk "w1"]).registry.length ≠
        (wsRun [WsEvent.openOk "w1", WsEvent.openOk "w1"]).socks.length := by
  decide

/-- Claim C10 (amended): a decoded `http_request` with only its `request_id`
defaults to `method="GET"`, `path="/"`, `query_string=""`, `headers={}` and
`body=b""`; a `ws_data` with only its `ws_id` defaults to `data=b""` and
`is_text=false`; but a `ws_open` without a `path` field defaults to
`"/api/websocket"`, not `"/"`. -/
theorem C10_missing_field_defaults (rid wid : String) :
    decodeFrame (.map [("type", .str "http_request"),
        ("request_id", .str rid)]) =
      some (.httpRequest rid "GET" "/" "" [] []) ∧
    decodeFrame (.map [("type", .str "ws_open"), ("ws_id", .str wid)]) =
      some (.wsOpen wid "/api/websocket" "") ∧
    decodeFrame (.map [("type", .str "ws_data"), ("ws_id", .str wid)]) =
      some (.wsData wid [] false) := by
  refine ⟨?_, ?_, ?_⟩ <;>
    simp [decodeFrame, msgTypeStr, lookupAL, getStrD, getHeadersD, getBytesD,
          getBoolD]

/-- Counterexample to C10 as stated: a `ws_open` frame with no `path` field is
handled with path `"/api/websocket"`, not with path `"/"`. -/
theorem C10_missing_field_defaults_counterexample :
    decodeFrame (.map [("type", MVal.str "ws_open"), ("ws_id", MVal.str "w1")]) =
      some (Frame.wsOpen "w1" "/api/websocket" "") ∧
    decodeFrame (.map [("type", MVal.str "ws_open"), ("ws_id", MVal.str "w1")]) ≠
      some (Frame.wsOpen "w1" "/" "") := by
  decide

end DimensionDoor
